import Mathlib

/-
Shallow embedding of the erth-showrom-api repository (a FastAPI proxy over
Airtable).  The embedded logic is:

  * the filter-to-formula compiler shared by POST /airtable/orders_list
    (src/routers/orders.py, get_filtered_orders_list) and
    POST /airtable/{table}/search-all
    (src/routers/airtable.py, search_airtable_records);

  * the simpler formula builder of POST /airtable/{table}/search
    (src/routers/airtable.py, search_airtable_record_route);

  * the order denormalizer fetch_order_details (src/routers/orders.py),
    including the backing-store calls it issues, which we record as a trace;

  * a store-based model of the dict operations of fetch_order_details
    (copy then pop), used to reason about non-mutation of the input record.

Python values arriving in a JSON request body are modelled by PyValue;
Python dicts are association lists in insertion order (JSON object order).
-/

namespace ErthShowroom

/-- A JSON-decoded Python value as it can appear in a request body or an
Airtable record field.  Booleans are separated from ints, matching the
isinstance(value, bool) test that Python performs before
isinstance(value, (int, float)). -/
inductive PyValue where
  | str (s : String)
  | int (n : Int)
  | bool (b : Bool)
  | list (xs : List PyValue)
  | none
deriving Repr

/-- Python truthiness for a PyValue: empty string, zero, False, empty list
and None are falsy. -/
def pyTruthy : PyValue → Bool
  | .str s => !(s == "")
  | .int n => !(n == 0)
  | .bool b => b
  | .list xs => !xs.isEmpty
  | .none => false

/-- isinstance(value, list). -/
def isPyList : PyValue → Bool
  | .list _ => true
  | _ => false

/-- The values the filter compiler supports: str, int/float, bool
(the branches of the if/elif chain that do not raise). -/
def isScalarValue : PyValue → Bool
  | .str _ => true
  | .int _ => true
  | .bool _ => true
  | _ => false

/-- Rendering of f-string "\x7btype(value)\x7d" for each PyValue shape. -/
def pyTypeName : PyValue → String
  | .str _ => "<class 'str'>"
  | .int _ => "<class 'int'>"
  | .bool _ => "<class 'bool'>"
  | .list _ => "<class 'list'>"
  | .none => "<class 'NoneType'>"

mutual

/-- Python repr() of a PyValue (the common case for strings: wrap in single
quotes). -/
def pyRepr : PyValue → String
  | .str s => "'" ++ s ++ "'"
  | .int n => toString n
  | .bool b => if b then "True" else "False"
  | .none => "None"
  | .list xs => "[" ++ String.intercalate ", " (pyReprElems xs) ++ "]"

/-- repr() of each list element, in order. -/
def pyReprElems : List PyValue → List String
  | [] => []
  | x :: xs => pyRepr x :: pyReprElems xs

end

/-- Python str() of a PyValue: identical to repr() except on strings,
where it yields the text itself.  Used where the code interpolates a
value into an f-string. -/
def pyStr : PyValue → String
  | .str s => s
  | v => pyRepr v

/-- value.replace("'", "\\'"): every single-quote character is replaced
by a backslash followed by a single quote. -/
def escapeQuotes (s : String) : String :=
  String.mk (s.data.flatMap (fun c => if c = '\'' then ['\\', '\''] else [c]))

/-- f-string "\x7b\x7b\x7bkey\x7d\x7d\x7d": the field name wrapped in
literal braces, as the Airtable formula language expects. -/
def braced (key : String) : String :=
  "\x7b" ++ key ++ "\x7d"

/-- ValueError raised by the compiler loop for an unsupported value type,
carrying the offending key and the rendering of its Python type. -/
inductive FilterError where
  | unsupportedType (key : String) (tyName : String)
deriving DecidableEq, Repr

/-- str() of the ValueError raised for an unsupported filter value
(orders.py line 171, airtable.py line 274). -/
def filterErrorMessage : FilterError → String
  | .unsupportedType key tyName =>
    "Unsupported value type for field '" ++ key ++ "': " ++ tyName

/-- One iteration of the compiler loop (orders.py lines 158-174,
airtable.py lines 260-277): booleans render as presence or NOT(...),
numbers as an unquoted literal, strings quoted with single quotes
escaped; anything else raises. -/
def filterPredicate (key : String) (value : PyValue) : Except FilterError String :=
  match value with
  | .bool b => .ok (if b then braced key else "NOT(" ++ braced key ++ ")")
  | .int n => .ok (braced key ++ " = " ++ toString n)
  | .str s => .ok (braced key ++ " = '" ++ escapeQuotes s ++ "'")
  | v => .error (.unsupportedType key (pyTypeName v))

/-- The predicate a supported (scalar) entry renders to; total companion
of filterPredicate used to state order-preservation theorems. -/
def scalarPred (key : String) (value : PyValue) : String :=
  match value with
  | .bool b => if b then braced key else "NOT(" ++ braced key ++ ")"
  | .int n => braced key ++ " = " ++ toString n
  | .str s => braced key ++ " = '" ++ escapeQuotes s ++ "'"
  | _ => ""

/-- The compiler loop over the filter map in insertion order, stopping at
the first unsupported value as the Python raise does. -/
def compileParts : List (String × PyValue) → Except FilterError (List String)
  | [] => .ok []
  | (key, value) :: rest =>
    match filterPredicate key value with
    | .error e => .error e
    | .ok p =>
      match compileParts rest with
      | .error e => .error e
      | .ok ps => .ok (p :: ps)

/-- Combine step of get_filtered_orders_list (orders.py lines 176-183):
formula stays None for an empty list, a single part is used verbatim,
two or more parts are joined under AND(...). -/
def combineFormula (parts : List String) : Option String :=
  match parts with
  | [] => Option.none
  | [p] => some p
  | ps => some ("AND(" ++ String.intercalate ", " ps ++ ")")

/-- The full filter compiler of get_filtered_orders_list: per-entry
predicates then the guarded combine. -/
def compileFilters (filters : List (String × PyValue)) :
    Except FilterError (Option String) :=
  match compileParts filters with
  | .error e => .error e
  | .ok parts => .ok (combineFormula parts)

/-- What can go wrong while search-all builds its formula: the ValueError
of the shared loop, or the IndexError from formula_parts[0] on an empty
list (airtable.py line 283 has no emptiness guard). -/
inductive SearchAllError where
  | filterError (e : FilterError)
  | indexError
deriving DecidableEq, Repr

/-- str() of the exception caught by the generic handler branch. -/
def searchAllErrorMessage : SearchAllError → String
  | .filterError e => filterErrorMessage e
  | .indexError => "list index out of range"

/-- Combine step of search_airtable_records (airtable.py lines 280-284):
AND(...) when more than one part, otherwise formula_parts[0], which
raises IndexError when the list is empty. -/
def searchAllCombine (parts : List String) : Except SearchAllError String :=
  match parts with
  | [] => .error .indexError
  | [p] => .ok p
  | ps => .ok ("AND(" ++ String.intercalate ", " ps ++ ")")

/-- The formula construction of POST /\x7btable\x7d/search-all. -/
def searchAllFormula (searchFields : List (String × PyValue)) :
    Except SearchAllError String :=
  match compileParts searchFields with
  | .error e => .error (.filterError e)
  | .ok parts => searchAllCombine parts

/-- The formula construction of POST /\x7btable\x7d/search
(airtable.py lines 211-214): every value is interpolated with str() and
quoted, with no escaping and no type dispatch, and the parts are always
wrapped in AND(...), even for zero or one entries. -/
def searchRouteFormula (searchFields : List (String × PyValue)) : String :=
  "AND(" ++ String.intercalate ", "
    (searchFields.map (fun kv => braced kv.1 ++ " = '" ++ pyStr kv.2 ++ "'")) ++ ")"

/-- An Airtable record as the client library returns it:
order_record["id"], order_record.get("createdTime") (None when absent),
order_record["fields"] as a dict in field order. -/
structure AirRecord where
  id : String
  createdTime : Option String
  fields : List (String × PyValue)
deriving Repr

/-- dict.pop(key, None): remove the first entry with the given key (a
Python dict holds it at most once) and return it, or None when absent. -/
def popKey (key : String) : List (String × PyValue) →
    Option PyValue × List (String × PyValue)
  | [] => (Option.none, [])
  | (k, v) :: rest =>
    if k = key then (some v, rest)
    else
      let r := popKey key rest
      (r.1, (k, v) :: r.2)

/-- The disjunctive formula built for the garment ids (orders.py lines
59-60): f-string "RECORD_ID()='\x7bgid\x7d'" per id, joined under OR(...). -/
def garmentFormula (gids : List PyValue) : String :=
  "OR(" ++ String.intercalate ", "
    (gids.map (fun gid => "RECORD_ID()='" ++ pyStr gid ++ "'")) ++ ")"

/-- A backing-store call issued by fetch_order_details: either
customer_table.get(customer_id) or garment_table.all(formula=...). -/
inductive FetchCall where
  | getCustomer (id : PyValue)
  | allGarments (formula : String)
deriving Repr

/-- Is the call a customer_table.get? -/
def isCustomerCall : FetchCall → Bool
  | .getCustomer _ => true
  | .allGarments _ => false

/-- Is the call a garment_table.all? -/
def isGarmentCall : FetchCall → Bool
  | .getCustomer _ => false
  | .allGarments _ => true

/-- The composite result fetch_order_details assembles:
\x7border, customer, garments\x7d. -/
structure OrderView where
  order : AirRecord
  customer : Option AirRecord
  garments : List AirRecord
deriving Repr

/-- The customer fetch step (orders.py lines 41-50) given the popped
CustomerID value: fetch only when the value is a truthy list (hence
non-empty), taking its first element as the sole foreign key; a falsy
fetch result leaves customer at None, which the Option already models. -/
def customerStep (popped : Option PyValue)
    (customerGet : PyValue → Option AirRecord) :
    Option AirRecord × List FetchCall :=
  match popped with
  | some v =>
    if pyTruthy v && isPyList v then
      match v with
      | .list (cid :: _) => (customerGet cid, [.getCustomer cid])
      | _ => (Option.none, [])
    else (Option.none, [])
  | Option.none => (Option.none, [])

/-- The garment fetch step (orders.py lines 52-63) given the popped
GARMENTS value: when it is a truthy list, resolve all ids in one
table.all call over the OR formula; otherwise no call and no garments. -/
def garmentStep (popped : Option PyValue)
    (garmentAll : String → List AirRecord) :
    List AirRecord × List FetchCall :=
  match popped with
  | some v =>
    if pyTruthy v && isPyList v then
      match v with
      | .list gids => (garmentAll (garmentFormula gids), [.allGarments (garmentFormula gids)])
      | _ => ([], [])
    else ([], [])
  | Option.none => ([], [])

/-- fetch_order_details (orders.py lines 20-65), with the backing store
abstracted into two oracles: customerGet for CUSTOMERS.get(id) (None
models a falsy/missing record) and garmentAll for GARMENTS.all(formula).
Besides the composite view we return the trace of calls issued.
The fields dict is copied, CustomerID and GARMENTS are popped from the
copy; a customer is fetched only when the popped value is a truthy list
(hence non-empty), taking its first element; garments are fetched in one
call over the OR formula only when the popped value is a truthy list. -/
def fetch_order_details (orderRecord : AirRecord)
    (customerGet : PyValue → Option AirRecord)
    (garmentAll : String → List AirRecord) :
    OrderView × List FetchCall :=
  let pop1 := popKey "CustomerID" orderRecord.fields
  let pop2 := popKey "GARMENTS" pop1.2
  let orderOut : AirRecord :=
    { id := orderRecord.id
      createdTime := orderRecord.createdTime
      fields := pop2.2 }
  let c := customerStep pop1.1 customerGet
  let g := garmentStep pop2.1 garmentAll
  ({ order := orderOut, customer := c.1, garments := g.1 },
   c.2 ++ g.2)

/-- The data slot of the uniform response envelope, restricted to the
shapes the embedded handlers produce. -/
inductive RespData where
  | records (rs : List AirRecord)
  | views (vs : List OrderView)
  | errorInfo (msg : String)
  | null
deriving Repr

/-- The uniform response envelope \x7bstatus, message, data, count\x7d. -/
structure ApiResponse where
  status : String
  message : String
  data : RespData
  count : Nat
deriving Repr

/-- Queries issued by the orders_list handler: the ORDERS.all call (with
an optional formula) and the detail calls of each fetch_order_details. -/
inductive OrdersQuery where
  | ordersAll (formula : Option String)
  | detail (c : FetchCall)
deriving Repr

/-- POST /airtable/orders_list (orders.py lines 136-235), with the
backing store abstracted into oracles.  Returns the envelope and the
trace of queries issued.  A ValueError from the compiler loop falls into
the generic except branch: an error envelope is returned and nothing is
fetched.  Otherwise ORDERS.all runs (with the formula when one was
produced), and each returned order is denormalized. -/
def get_filtered_orders_list (filters : List (String × PyValue))
    (orderAll : Option String → List AirRecord)
    (customerGet : PyValue → Option AirRecord)
    (garmentAll : String → List AirRecord) :
    ApiResponse × List OrdersQuery :=
  match compileFilters filters with
  | .error e =>
    ({ status := "error", message := "Unexpected server error",
       data := .errorInfo (filterErrorMessage e), count := 0 }, [])
  | .ok formula =>
    let orderRecords := orderAll formula
    if orderRecords.isEmpty then
      ({ status := "success", message := "No orders found matching the filters",
         data := .views [], count := 0 }, [OrdersQuery.ordersAll formula])
    else
      let details := orderRecords.map
        (fun r => fetch_order_details r customerGet garmentAll)
      let views := details.map Prod.fst
      ({ status := "success",
         message := "Found " ++ toString views.length ++ " orders matching the filters",
         data := .views views, count := views.length },
       OrdersQuery.ordersAll formula ::
         ((details.map Prod.snd).flatten.map OrdersQuery.detail))

/-- POST /airtable/\x7btable\x7d/search-all (airtable.py lines 248-323),
with table.all abstracted into an oracle.  Returns the envelope and the
trace of formulas queried.  An exception during formula construction
(ValueError or the IndexError of the empty case) falls into the generic
except branch: an error envelope, no query. -/
def search_airtable_records (searchFields : List (String × PyValue))
    (tableAll : String → List AirRecord) :
    ApiResponse × List String :=
  match searchAllFormula searchFields with
  | .error e =>
    ({ status := "error", message := "Unexpected server error",
       data := .errorInfo (searchAllErrorMessage e), count := 0 }, [])
  | .ok formula =>
    let records := tableAll formula
    ({ status := "success",
       message := "Found " ++ toString records.length ++ " matching records",
       data := .records records, count := records.length }, [formula])

/-!  A store-based model of the dict operations of fetch_order_details
(orders.py lines 29-39), to reason about mutation.  Dicts live in a
store indexed by references; order_record["fields"].copy() allocates a
fresh dict with the same contents, and the two pops write through the
copy's reference only.  -/

/-- A Python dict of record fields. -/
abbrev Dict := List (String × PyValue)

/-- The dict store: a reference is an index into it. -/
abbrev Store := List Dict

/-- Dereference (out-of-range reads yield the empty dict; the embedded
code only reads references it was given or allocated). -/
def readDict (st : Store) (r : Nat) : Dict :=
  (st[r]?).getD []

/-- Allocate a fresh dict, returning the new store and its reference. -/
def allocDict (st : Store) (d : Dict) : Store × Nat :=
  (st ++ [d], st.length)

/-- Overwrite the dict behind a reference. -/
def writeDict (st : Store) (r : Nat) (d : Dict) : Store :=
  st.set r d

/-- dict.pop(key, None) performed through a reference: mutates the
referenced dict in the store. -/
def popKeyRef (st : Store) (r : Nat) (key : String) : Store × Option PyValue :=
  let p := popKey key (readDict st r)
  (writeDict st r p.2, p.1)

/-- The dict manipulation of fetch_order_details (orders.py lines
29-39) in the store model: copy the order's fields dict, then pop
"CustomerID" and "GARMENTS" from the copy.  Returns the final store, the
copy's reference and the two popped values.  The remainder of the
function (lines 41-65) only reads these values and builds fresh data, so
it touches no dict in the store. -/
def fetch_order_details_fieldOps (st : Store) (orderFieldsRef : Nat) :
    Store × Nat × Option PyValue × Option PyValue :=
  let a := allocDict st (readDict st orderFieldsRef)
  let p1 := popKeyRef a.1 a.2 "CustomerID"
  let p2 := popKeyRef p1.1 a.2 "GARMENTS"
  (p2.1, a.2, p1.2, p2.2)

/-!  Supporting lemmas.  -/

/-- A supported (scalar) entry renders without raising, to scalarPred. -/
theorem filterPredicate_eq_ok (key : String) (v : PyValue)
    (h : isScalarValue v = true) :
    filterPredicate key v = .ok (scalarPred key v) := by
  cases v <;> simp_all [filterPredicate, scalarPred, isScalarValue]

/-- An unsupported entry raises, naming the key and the value's type. -/
theorem filterPredicate_eq_error (key : String) (v : PyValue)
    (h : isScalarValue v = false) :
    filterPredicate key v = .error (.unsupportedType key (pyTypeName v)) := by
  cases v <;> simp_all [filterPredicate, isScalarValue]

/-- On an all-scalar filter map the compiler loop succeeds and yields the
per-entry predicates in insertion order. -/
theorem compileParts_ok (filters : List (String × PyValue))
    (h : ∀ kv ∈ filters, isScalarValue kv.2 = true) :
    compileParts filters = .ok (filters.map (fun kv => scalarPred kv.1 kv.2)) := by
  induction filters with
  | nil => rfl
  | cons kv rest ih =>
    obtain ⟨k, v⟩ := kv
    have hv : isScalarValue v = true := h (k, v) (List.mem_cons_self _ _)
    have hrest := ih (fun kv hkv => h kv (List.mem_cons_of_mem _ hkv))
    simp [compileParts, filterPredicate_eq_ok k v hv, hrest]

/-- The compiler loop stops at the first unsupported entry, raising with
that entry's key and type. -/
theorem compileParts_error_first (filters : List (String × PyValue))
    (k : String) (v : PyValue)
    (h : filters.find? (fun kv => !(isScalarValue kv.2)) = some (k, v)) :
    compileParts filters = .error (.unsupportedType k (pyTypeName v)) := by
  induction filters with
  | nil => simp at h
  | cons kv rest ih =>
    obtain ⟨k', v'⟩ := kv
    by_cases hs : isScalarValue v' = true
    · rw [List.find?_cons_of_neg _ (by simp [hs])] at h
      simp [compileParts, filterPredicate_eq_ok k' v' hs, ih h]
    · rw [List.find?_cons_of_pos _ (by simp [hs])] at h
      have h1 : (k', v') = (k, v) := by injection h
      cases h1
      simp [compileParts,
        filterPredicate_eq_error k v (Bool.eq_false_iff.mpr hs)]

/-- Popping a key only removes entries: the remaining keys are a sublist
of the original keys. -/
theorem popKey_keys_sublist (key : String) (l : List (String × PyValue)) :
    ((popKey key l).2.map Prod.fst).Sublist (l.map Prod.fst) := by
  induction l with
  | nil => simp [popKey]
  | cons kv rest ih =>
    obtain ⟨k, v⟩ := kv
    by_cases hk : k = key
    · simp only [popKey, if_pos hk, List.map_cons]
      exact List.sublist_cons_self _ _
    · simp only [popKey, if_neg hk, List.map_cons]
      exact ih.cons₂ _

/-- When the dict keys are unique, the popped key does not survive. -/
theorem popKey_fst_not_mem (key : String) (l : List (String × PyValue))
    (h : (l.map Prod.fst).Nodup) :
    key ∉ ((popKey key l).2.map Prod.fst) := by
  induction l with
  | nil => simp [popKey]
  | cons kv rest ih =>
    obtain ⟨k, v⟩ := kv
    simp only [List.map_cons, List.nodup_cons] at h
    by_cases hk : k = key
    · simp only [popKey, if_pos hk]
      subst hk
      exact h.1
    · simp only [popKey, if_neg hk, List.map_cons, List.mem_cons]
      rintro (rfl | hmem)
      · exact hk rfl
      · exact ih h.2 hmem

/-- A key absent from the dict stays absent after popping another key. -/
theorem not_mem_popKey_of_not_mem (key key' : String)
    (l : List (String × PyValue)) (h : key ∉ (l.map Prod.fst)) :
    key ∉ ((popKey key' l).2.map Prod.fst) :=
  fun hmem => h ((popKey_keys_sublist key' l).subset hmem)

/-- Unique keys stay unique after a pop. -/
theorem popKey_keys_nodup (key : String) (l : List (String × PyValue))
    (h : (l.map Prod.fst).Nodup) :
    ((popKey key l).2.map Prod.fst).Nodup :=
  h.sublist (popKey_keys_sublist key l)

/-- The garment step never issues a customer_table.get. -/
theorem garmentStep_no_customer_call (popped : Option PyValue)
    (ga : String → List AirRecord) :
    ((garmentStep popped ga).2).filter isCustomerCall = [] := by
  cases popped with
  | none => rfl
  | some v =>
    cases v <;> simp only [garmentStep] <;> first
      | rfl
      | (split <;> simp [isCustomerCall])

/-- The customer step never issues a garment_table.all. -/
theorem customerStep_no_garment_call (popped : Option PyValue)
    (cg : PyValue → Option AirRecord) :
    ((customerStep popped cg).2).filter isGarmentCall = [] := by
  cases popped with
  | none => rfl
  | some v =>
    cases v <;> simp only [customerStep] <;> first
      | rfl
      | (split <;> (try split) <;> simp [isGarmentCall])

/-!  Claim theorems.  -/

/-- C1 (counterexample): the claim asserts that with zero entries no
predicate is produced and the fetch is issued unfiltered (or the result
is null), for both cited compilers.  For the search-all compiler this is
false at the empty filter map: formula_parts[0] raises IndexError, the
handler answers with an error envelope and no fetch at all is issued. -/
theorem c1_counterexample :
    searchAllFormula [] = .error .indexError ∧
    (search_airtable_records [] (fun _ => [])).1.status = "error" ∧
    (search_airtable_records [] (fun _ => [])).2 = [] :=
  ⟨rfl, rfl, rfl⟩

/-- C1 (amended): on an all-scalar filter map the compiler loop yields
the per-entry predicates in insertion order, and the combine rule holds:
zero entries give no predicate in orders_list (None, unfiltered fetch)
but an IndexError in search-all; one entry gives that entry's predicate
verbatim in both; two or more give "AND(p1, p2, ...)" in insertion order
in both. -/
theorem c1_combine_rule (filters : List (String × PyValue))
    (h : ∀ kv ∈ filters, isScalarValue kv.2 = true) :
    compileParts filters = .ok (filters.map (fun kv => scalarPred kv.1 kv.2)) ∧
    (filters = [] →
       compileFilters filters = .ok Option.none ∧
       searchAllFormula filters = .error .indexError) ∧
    (∀ k v, filters = [(k, v)] →
       compileFilters filters = .ok (some (scalarPred k v)) ∧
       searchAllFormula filters = .ok (scalarPred k v)) ∧
    (2 ≤ filters.length →
       compileFilters filters = .ok (some ("AND(" ++ String.intercalate ", "
         (filters.map (fun kv => scalarPred kv.1 kv.2)) ++ ")")) ∧
       searchAllFormula filters = .ok ("AND(" ++ String.intercalate ", "
         (filters.map (fun kv => scalarPred kv.1 kv.2)) ++ ")")) := by
  have hp := compileParts_ok filters h
  refine ⟨hp, ?_, ?_, ?_⟩
  · rintro rfl
    exact ⟨rfl, rfl⟩
  · rintro k v rfl
    have hv := h (k, v) (by simp)
    constructor <;>
      simp [compileFilters, searchAllFormula, compileParts,
        filterPredicate_eq_ok k v hv, combineFormula, searchAllCombine]
  · intro h2
    obtain _ | ⟨⟨k1, v1⟩, _ | ⟨⟨k2, v2⟩, rest⟩⟩ := filters
    · simp at h2
    · simp at h2
    · have hp2 := compileParts_ok ((k1, v1) :: (k2, v2) :: rest) h
      constructor <;>
        simp [compileFilters, searchAllFormula, hp2, combineFormula,
          searchAllCombine]

/-- C1 (witness): the amended combine rule applied to a concrete
two-entry filter map, showing order preservation (not alphabetized). -/
theorem c1_witness :
    compileFilters [("B", PyValue.int 1), ("A", PyValue.int 2)] =
      .ok (some "AND({B} = 1, {A} = 2)") :=
  ((c1_combine_rule [("B", PyValue.int 1), ("A", PyValue.int 2)]
    (by intro kv hkv; fin_cases hkv <;> rfl)).2.2.2 (by simp)).1

/-- C2 (counterexample): for the same one-entry filter map, the /search
route wraps the single predicate in AND(...) while search-all (the §4.1
compiler) returns it verbatim, so the two endpoints do not produce the
same predicate string. -/
theorem c2_counterexample :
    searchRouteFormula [("A", PyValue.str "x")] = "AND({A} = 'x')" ∧
    searchAllFormula [("A", PyValue.str "x")] = .ok "{A} = 'x'" ∧
    "AND({A} = 'x')" ≠ "{A} = 'x'" :=
  ⟨rfl, rfl, by decide⟩

/-- C2 (amended): only search-all builds its predicate via the §4.1
Filter Compiler — whenever that compiler yields a predicate, search-all's
formula is exactly it.  The /search route instead renders every entry as
"key = 'str(value)'" with no escaping and no type dispatch and always
wraps in AND(...), so the two endpoints can differ on the same map
(quote escaping and boolean rendering shown concretely). -/
theorem c2_search_endpoints :
    (∀ (filters : List (String × PyValue)) (p : String),
       compileFilters filters = .ok (some p) →
       searchAllFormula filters = .ok p) ∧
    searchRouteFormula [("Name", PyValue.str "O'Brien")] =
      "AND({Name} = 'O'Brien')" ∧
    searchRouteFormula [("B", PyValue.bool true)] = "AND({B} = 'True')" ∧
    compileFilters [("B", PyValue.bool true)] = .ok (some "{B}") := by
  refine ⟨?_, rfl, rfl, rfl⟩
  intro filters p h
  unfold compileFilters at h
  unfold searchAllFormula
  cases hcp : compileParts filters with
  | error e => rw [hcp] at h; simp at h
  | ok parts =>
    rw [hcp] at h
    simp only [Except.ok.injEq] at h
    show searchAllCombine parts = Except.ok p
    obtain _ | ⟨q, _ | ⟨q2, t⟩⟩ := parts
    · simp [combineFormula] at h
    · simp [combineFormula] at h
      subst h
      rfl
    · simp [combineFormula] at h
      subst h
      rfl

/-- C2 (witness): search-all agreeing with the §4.1 compiler on a
concrete filter map. -/
theorem c2_witness :
    searchAllFormula [("A", PyValue.int 5)] = .ok "{A} = 5" :=
  c2_search_endpoints.1 [("A", PyValue.int 5)] "{A} = 5" rfl

/-- C3 (counterexample): the compiled predicate renders the field name
wrapped in braces, not bare: compile(\x7bA: 1\x7d) yields "\x7bA\x7d = 1",
which differs from the claimed "A = 1". -/
theorem c3_counterexample :
    compileFilters [("A", PyValue.int 1)] = .ok (some "{A} = 1") ∧
    "{A} = 1" ≠ "A = 1" :=
  ⟨rfl, by decide⟩

/-- C3 (amended): the per-entry predicates render the field name wrapped
in braces: compile(\x7bA: 1\x7d) = "\x7bA\x7d = 1",
compile(\x7bA: false\x7d) = "NOT(\x7bA\x7d)", and
compile(\x7bA: "x", B: true\x7d) = "AND(\x7bA\x7d = 'x', \x7bB\x7d)". -/
theorem c3_brace_rendering :
    compileFilters [("A", PyValue.int 1)] = .ok (some "{A} = 1") ∧
    compileFilters [("A", PyValue.bool false)] = .ok (some "NOT({A})") ∧
    compileFilters [("A", PyValue.str "x"), ("B", PyValue.bool true)] =
      .ok (some "AND({A} = 'x', {B})") :=
  ⟨rfl, rfl, rfl⟩

/-- C4 (counterexample): the escaping rule itself holds, but the claimed
example does not: compile(\x7bName: "O'Brien"\x7d) yields
"\x7bName\x7d = 'O\'Brien'", whose text does not contain the claimed
substring "Name = 'O\'Brien'" because the field name is wrapped in
braces ("Name\x7d = ..." intervenes). -/
theorem c4_counterexample :
    compileFilters [("Name", PyValue.str "O'Brien")] =
      .ok (some "{Name} = 'O\\'Brien'") ∧
    ¬ List.IsInfix ("Name = 'O\\'Brien'".data) ("{Name} = 'O\\'Brien'".data) :=
  ⟨rfl, by decide⟩

/-- C4 (amended): every string-valued entry compiles to
"\x7bkey\x7d = '<escaped>'" where escaping replaces every single quote
with backslash-quote; escaping is characterized by concatenation
homomorphism together with its action on a quote and on any other single
character; and the O'Brien example yields the braced predicate
"\x7bName\x7d = 'O\'Brien'". -/
theorem c4_escaping (key s : String) :
    filterPredicate key (.str s) =
      .ok (braced key ++ " = '" ++ escapeQuotes s ++ "'") ∧
    (∀ a b : String, escapeQuotes (a ++ b) = escapeQuotes a ++ escapeQuotes b) ∧
    escapeQuotes "'" = "\\'" ∧
    (∀ c : Char, c ≠ '\'' → escapeQuotes (String.mk [c]) = String.mk [c]) ∧
    compileFilters [("Name", PyValue.str "O'Brien")] =
      .ok (some "{Name} = 'O\\'Brien'") := by
  refine ⟨rfl, ?_, rfl, ?_, rfl⟩
  · intro a b
    show String.mk ((a ++ b).data.flatMap _) = _
    rw [String.data_append, List.flatMap_append]
    rfl
  · intro c hc
    simp [escapeQuotes, hc]

/-- C4 (witness): the amended escaping facts at concrete inputs. -/
theorem c4_witness :
    filterPredicate "Name" (PyValue.str "O'Brien") =
      .ok ("{Name} = 'O\\'Brien'") ∧
    escapeQuotes ("ab" ++ "c'd") = escapeQuotes "ab" ++ escapeQuotes "c'd" ∧
    escapeQuotes (String.mk ['a']) = String.mk ['a'] :=
  ⟨(c4_escaping "Name" "O'Brien").1,
   (c4_escaping "Name" "O'Brien").2.1 "ab" "c'd",
   (c4_escaping "Name" "O'Brien").2.2.2.1 'a' (by decide)⟩

/-- C5 (confirmed): a filter map holding a non-scalar value makes the
compiler loop raise an UnsupportedFilterType error naming the first
offending key and its type, and both handlers that use the loop answer
with an error envelope carrying that message without issuing any query
to the backing store. -/
theorem c5_unsupported_type (filters : List (String × PyValue))
    (k : String) (v : PyValue)
    (h : filters.find? (fun kv => !(isScalarValue kv.2)) = some (k, v)) :
    compileParts filters = .error (.unsupportedType k (pyTypeName v)) ∧
    (∀ orderAll customerGet garmentAll,
       (get_filtered_orders_list filters orderAll customerGet garmentAll).1.status
         = "error" ∧
       (get_filtered_orders_list filters orderAll customerGet garmentAll).1.data
         = .errorInfo ("Unsupported value type for field '" ++ k ++ "': "
             ++ pyTypeName v) ∧
       (get_filtered_orders_list filters orderAll customerGet garmentAll).2 = []) ∧
    (∀ tableAll,
       (search_airtable_records filters tableAll).1.status = "error" ∧
       (search_airtable_records filters tableAll).1.data
         = .errorInfo ("Unsupported value type for field '" ++ k ++ "': "
             ++ pyTypeName v) ∧
       (search_airtable_records filters tableAll).2 = []) := by
  have hcp := compileParts_error_first filters k v h
  refine ⟨hcp, ?_, ?_⟩
  · intro orderAll cg ga
    simp [get_filtered_orders_list, compileFilters, hcp, filterErrorMessage]
  · intro tableAll
    simp [search_airtable_records, searchAllFormula, hcp,
      searchAllErrorMessage, filterErrorMessage]

/-- C5 (witness): the empty-list example \x7bA: []\x7d fails with the
error naming key A and the list type, and search-all issues no query. -/
theorem c5_witness :
    compileParts [("A", PyValue.list [])] =
      .error (.unsupportedType "A" "<class 'list'>") ∧
    (search_airtable_records [("A", PyValue.list [])] (fun _ => [])).2 = [] :=
  ⟨(c5_unsupported_type [("A", PyValue.list [])] "A" (PyValue.list []) rfl).1,
   ((c5_unsupported_type [("A", PyValue.list [])] "A" (PyValue.list []) rfl).2.2
     (fun _ => [])).2.2⟩

/-- C6 (confirmed): denormalize strips the "CustomerID" and "GARMENTS"
keys from the output order's fields, and on the §8 example the output
order fields hold only Status, customer is the fetchOne("CUSTOMERS","c1")
result, garments is the fetchMany result for the OR formula over g1 and
g2, assembled as \x7border, customer, garments\x7d with the order's id
and createdTime kept. -/
theorem c6_denormalize (r : AirRecord)
    (cg : PyValue → Option AirRecord) (ga : String → List AirRecord)
    (h : (r.fields.map Prod.fst).Nodup) :
    "CustomerID" ∉ ((fetch_order_details r cg ga).1.order.fields.map Prod.fst) ∧
    "GARMENTS" ∉ ((fetch_order_details r cg ga).1.order.fields.map Prod.fst) ∧
    (∀ (cg2 : PyValue → Option AirRecord) (ga2 : String → List AirRecord),
       fetch_order_details
         ⟨"o1", some "t1",
            [("CustomerID", PyValue.list [PyValue.str "c1"]),
             ("GARMENTS", PyValue.list [PyValue.str "g1", PyValue.str "g2"]),
             ("Status", PyValue.str "Open")]⟩ cg2 ga2
       = ({ order := ⟨"o1", some "t1", [("Status", PyValue.str "Open")]⟩,
            customer := cg2 (PyValue.str "c1"),
            garments := ga2 "OR(RECORD_ID()='g1', RECORD_ID()='g2')" },
          [FetchCall.getCustomer (PyValue.str "c1"),
           FetchCall.allGarments "OR(RECORD_ID()='g1', RECORD_ID()='g2')"])) := by
  refine ⟨?_, ?_, fun _ _ => rfl⟩
  · simp only [fetch_order_details]
    exact not_mem_popKey_of_not_mem _ _ _ (popKey_fst_not_mem _ _ h)
  · simp only [fetch_order_details]
    exact popKey_fst_not_mem _ _ (popKey_keys_nodup _ _ h)

/-- C6 (witness): the strip property applied at the §8 example record. -/
theorem c6_witness :
    "CustomerID" ∉
      ((fetch_order_details
        ⟨"o1", some "t1",
           [("CustomerID", PyValue.list [PyValue.str "c1"]),
            ("GARMENTS", PyValue.list [PyValue.str "g1", PyValue.str "g2"]),
            ("Status", PyValue.str "Open")]⟩
        (fun _ => Option.none) (fun _ => [])).1.order.fields.map Prod.fst) :=
  (c6_denormalize _ (fun _ => Option.none) (fun _ => []) (by decide)).1

/-- C7 (confirmed): when the popped CustomerID value is a non-empty
list, exactly one customer fetch is issued, for the first id only, and
customer is its result; customer is None when the field was absent, when
its value is not a list, or when the lookup finds nothing. -/
theorem c7_single_customer (r : AirRecord)
    (cg : PyValue → Option AirRecord) (ga : String → List AirRecord) :
    (∀ cid rest,
       (popKey "CustomerID" r.fields).1 = some (PyValue.list (cid :: rest)) →
       (fetch_order_details r cg ga).1.customer = cg cid ∧
       ((fetch_order_details r cg ga).2.filter isCustomerCall)
         = [FetchCall.getCustomer cid]) ∧
    ((popKey "CustomerID" r.fields).1 = Option.none →
       (fetch_order_details r cg ga).1.customer = Option.none ∧
       ((fetch_order_details r cg ga).2.filter isCustomerCall) = []) ∧
    (∀ v, (popKey "CustomerID" r.fields).1 = some v → isPyList v = false →
       (fetch_order_details r cg ga).1.customer = Option.none ∧
       ((fetch_order_details r cg ga).2.filter isCustomerCall) = []) ∧
    (∀ cid rest,
       (popKey "CustomerID" r.fields).1 = some (PyValue.list (cid :: rest)) →
       cg cid = Option.none →
       (fetch_order_details r cg ga).1.customer = Option.none) := by
  refine ⟨?_, ?_, ?_, ?_⟩
  · intro cid rest hpop
    simp only [fetch_order_details, hpop]
    refine ⟨by simp [customerStep, pyTruthy, isPyList], ?_⟩
    rw [List.filter_append]
    simp [customerStep, pyTruthy, isPyList, isCustomerCall,
      garmentStep_no_customer_call]
  · intro hpop
    simp only [fetch_order_details, hpop]
    refine ⟨rfl, ?_⟩
    rw [List.filter_append]
    simp [customerStep, garmentStep_no_customer_call]
  · intro v hpop hv
    simp only [fetch_order_details, hpop]
    refine ⟨by simp [customerStep, hv], ?_⟩
    rw [List.filter_append]
    simp [customerStep, hv, garmentStep_no_customer_call]
  · intro cid rest hpop hcg
    simp only [fetch_order_details, hpop]
    simp [customerStep, pyTruthy, isPyList, hcg]

/-- C7 (witness): the single-fetch behavior at a record whose CustomerID
holds two ids: only the first is fetched. -/
theorem c7_witness :
    (fetch_order_details
      ⟨"o1", Option.none,
         [("CustomerID", PyValue.list [PyValue.str "c1", PyValue.str "c2"])]⟩
      (fun v => some ⟨"cr", Option.none, [("K", v)]⟩) (fun _ => [])).1.customer
      = some ⟨"cr", Option.none, [("K", PyValue.str "c1")]⟩ :=
  ((c7_single_customer
      ⟨"o1", Option.none,
         [("CustomerID", PyValue.list [PyValue.str "c1", PyValue.str "c2"])]⟩
      (fun v => some ⟨"cr", Option.none, [("K", v)]⟩) (fun _ => [])).1
    (PyValue.str "c1") [PyValue.str "c2"] rfl).1

/-- C8 (confirmed): when the popped GARMENTS value is a non-empty list,
all ids are resolved by exactly one garment fetch over the OR formula in
array order; when the key is absent, its value not a list, or the list
empty, garments is empty and no garment fetch is issued. -/
theorem c8_garments (r : AirRecord)
    (cg : PyValue → Option AirRecord) (ga : String → List AirRecord) :
    (∀ g gs,
       (popKey "GARMENTS" (popKey "CustomerID" r.fields).2).1
         = some (PyValue.list (g :: gs)) →
       (fetch_order_details r cg ga).1.garments = ga (garmentFormula (g :: gs)) ∧
       ((fetch_order_details r cg ga).2.filter isGarmentCall)
         = [FetchCall.allGarments (garmentFormula (g :: gs))]) ∧
    ((popKey "GARMENTS" (popKey "CustomerID" r.fields).2).1 = Option.none →
       (fetch_order_details r cg ga).1.garments = [] ∧
       ((fetch_order_details r cg ga).2.filter isGarmentCall) = []) ∧
    (∀ v, (popKey "GARMENTS" (popKey "CustomerID" r.fields).2).1 = some v →
       isPyList v = false →
       (fetch_order_details r cg ga).1.garments = [] ∧
       ((fetch_order_details r cg ga).2.filter isGarmentCall) = []) ∧
    ((popKey "GARMENTS" (popKey "CustomerID" r.fields).2).1
         = some (PyValue.list []) →
       (fetch_order_details r cg ga).1.garments = [] ∧
       ((fetch_order_details r cg ga).2.filter isGarmentCall) = []) := by
  refine ⟨?_, ?_, ?_, ?_⟩
  · intro g gs hpop
    simp only [fetch_order_details, hpop]
    refine ⟨by simp [garmentStep, pyTruthy, isPyList], ?_⟩
    rw [List.filter_append]
    simp [garmentStep, pyTruthy, isPyList, isGarmentCall,
      customerStep_no_garment_call]
  · intro hpop
    simp only [fetch_order_details, hpop]
    refine ⟨rfl, ?_⟩
    rw [List.filter_append]
    simp [garmentStep, customerStep_no_garment_call]
  · intro v hpop hv
    simp only [fetch_order_details, hpop]
    refine ⟨by simp [garmentStep, hv], ?_⟩
    rw [List.filter_append]
    simp [garmentStep, hv, customerStep_no_garment_call]
  · intro hpop
    simp only [fetch_order_details, hpop]
    refine ⟨by simp [garmentStep, pyTruthy], ?_⟩
    rw [List.filter_append]
    simp [garmentStep, pyTruthy, customerStep_no_garment_call]

/-- C8 (witness): a record without a GARMENTS key yields empty garments
and no garment fetch. -/
theorem c8_witness :
    (fetch_order_details ⟨"o1", Option.none, [("Status", PyValue.str "Open")]⟩
      (fun _ => Option.none) (fun _ => [⟨"g", Option.none, []⟩])).1.garments
      = [] :=
  ((c8_garments ⟨"o1", Option.none, [("Status", PyValue.str "Open")]⟩
      (fun _ => Option.none) (fun _ => [⟨"g", Option.none, []⟩])).2.1 rfl).1

/-- C9 (confirmed): in the store model of the dict operations of
fetch_order_details, the caller's fields dict is untouched: the pops act
on a freshly allocated copy, so after the call the dict behind the
original reference equals the original, CustomerID and GARMENTS
included. -/
theorem c9_no_mutation (st : Store) (r : Nat) (h : r < st.length) :
    readDict (fetch_order_details_fieldOps st r).1 r = readDict st r := by
  have hr : st.length ≠ r := (Nat.ne_of_lt h).symm
  simp only [fetch_order_details_fieldOps, allocDict, popKeyRef, writeDict,
    readDict]
  rw [List.getElem?_set_ne hr, List.getElem?_set_ne hr,
    List.getElem?_append_left h]

/-- C9 (witness): the frame property at a one-dict store whose dict
holds CustomerID and GARMENTS entries. -/
theorem c9_witness :
    0 < ([[("CustomerID", PyValue.list [PyValue.str "c1"]),
           ("GARMENTS", PyValue.list [PyValue.str "g1"])]] : Store).length ∧
    readDict (fetch_order_details_fieldOps
        [[("CustomerID", PyValue.list [PyValue.str "c1"]),
          ("GARMENTS", PyValue.list [PyValue.str "g1"])]] 0).1 0
      = readDict
        [[("CustomerID", PyValue.list [PyValue.str "c1"]),
          ("GARMENTS", PyValue.list [PyValue.str "g1"])]] 0 :=
  ⟨by decide, c9_no_mutation _ 0 (by decide)⟩

/-- C10 (confirmed): POST search-all with an empty filter map never
reaches the backing store: formula_parts[0] raises IndexError, so the
handler returns the error envelope (status "error", count 0, the
IndexError text as data) and the query trace is empty. -/
theorem c10_empty_search_all (tableAll : String → List AirRecord) :
    search_airtable_records [] tableAll =
      ({ status := "error", message := "Unexpected server error",
         data := .errorInfo "list index out of range", count := 0 }, []) :=
  rfl

/-- C10 (witness): the empty-map behavior at a concrete table oracle. -/
theorem c10_witness :
    search_airtable_records [] (fun _ => [⟨"rec", Option.none, []⟩]) =
      ({ status := "error", message := "Unexpected server error",
         data := .errorInfo "list index out of range", count := 0 }, []) :=
  c10_empty_search_all (fun _ => [⟨"rec", Option.none, []⟩])

end ErthShowroom
